import Mathlib

/-!
Shallow embedding of the Virtual-Fleet-IoT device agent
(`src/device/src/{types,storage,ota,config,main}.rs`) and proofs about it.

Modelling conventions:
* `u64`/`u32` integers become `Nat`; `i64` row-ids become `Nat` (SQLite
  assigns them from an increasing counter here).
* `f32` sensor fields carry no claim-relevant arithmetic, so they are
  modelled as `Int` placeholders; only their equality matters.
* `serde_json::Value` becomes the inductive `Json` below; `Value::get`
  returns the value behind a key of an object and `none` otherwise.
* Fallible effects (network calls, file writes) are inputs to the pure
  transition functions: each tick function takes the outcome of the
  fallible calls it performs and returns the new state plus an effect
  record describing what the tick did (timers reset, persists issued,
  network payloads sent, process exit).
-/

/-- JSON-like document type standing for `serde_json::Value`. -/
inductive Json where
  | null : Json
  | bool : Bool → Json
  | num : Int → Json
  | str : String → Json
  | arr : List Json → Json
  | obj : List (String × Json) → Json

/-- Field lookup in an association list of JSON object fields. -/
def Json.lookupField : List (String × Json) → String → Option Json
  | [], _ => none
  | (k', v) :: fs, k => if k' = k then some v else Json.lookupField fs k

/-- Model of `Value::get(key)`: field of an object, `none` on any other variant. -/
def Json.get : Json → String → Option Json
  | .obj fs, k => Json.lookupField fs k
  | _, _ => none

/-- Model of `value[key] = v` on an object's field list: replace in place if the key
exists, otherwise append the new field. -/
def setField : List (String × Json) → String → Json → List (String × Json)
  | [], k, v => [(k, v)]
  | (k', v') :: fs, k, v =>
      if k' = k then (k, v) :: fs else (k', v') :: setField fs k v

/-- Lookup in an object field list (same as `Json.lookupField`, kept as the
accessor used for `reported` documents). -/
def getField : List (String × Json) → String → Option Json
  | [], _ => none
  | (k', v) :: fs, k => if k' = k then some v else getField fs k

/-- Model of `serde_json::Number::as_u64` on our integers: non-negative
integers convert, negatives do not. -/
def asU64 (n : Int) : Option Nat :=
  if n < 0 then none else some n.toNat

/-- One sensor sample (`types::Measurement`, in the shape stored by
`storage.rs` and produced by `simulate.rs`). -/
structure Measurement where
  timestamp : String
  temp : Int
  humidity : Int
  battery : Int
  sequence_number : Nat
  latitude : Option Int
  longitude : Option Int
  speed : Option Int
  firmware_version : Option String
deriving DecidableEq, Repr

/-- The local SQLite `measurements` table: an auto-increment id counter and
the rows in insertion order, each row carrying its assigned id. -/
structure Store where
  nextId : Nat
  rows : List (Nat × Measurement)
deriving DecidableEq, Repr

/-- Model of `storage::append_measurement`: INSERT assigns the next id and places the
row at the tail of the table. -/
def append_measurement (s : Store) (m : Measurement) : Store :=
  { nextId := s.nextId + 1, rows := s.rows ++ [(s.nextId, m)] }

/-- Appending a list of measurements one by one (what the sampling loop and
the re-enqueue loop do). -/
def appendAll (s : Store) (ms : List Measurement) : Store :=
  ms.foldl append_measurement s

/-- Insert a row into a list kept ascending by id (helper for the
`ORDER BY id` SELECT of `get_and_clear_measurements`). -/
def insertById (r : Nat × Measurement) :
    List (Nat × Measurement) → List (Nat × Measurement)
  | [] => [r]
  | x :: xs => if r.1 ≤ x.1 then r :: x :: xs else x :: insertById r xs

/-- Sort rows ascending by id (the `ORDER BY id` of the SELECT). -/
def sortById (rs : List (Nat × Measurement)) : List (Nat × Measurement) :=
  rs.foldr insertById []

/-- Model of `storage::get_and_clear_measurements`: in one transaction, SELECT up to
`batch_size` rows ordered by id, DELETE exactly those ids, commit, and
return the selected measurements (without their ids). -/
def get_and_clear_measurements (s : Store) (batch_size : Nat) :
    List Measurement × Store :=
  let selected := (sortById s.rows).take batch_size
  let ids := selected.map Prod.fst
  (selected.map Prod.snd,
   { nextId := s.nextId, rows := s.rows.filter (fun r => !(ids.contains r.1)) })

/-- Well-formedness of the store: row ids strictly increase along the list
and stay below the id counter.  `append_measurement` preserves this and the
empty table has it, so every store reachable in the agent is well formed. -/
def StoreWF (s : Store) : Prop :=
  s.rows.Pairwise (fun a b => a.1 < b.1) ∧ ∀ r ∈ s.rows, r.1 < s.nextId

/-! ## OTA state machine (`src/device/src/ota.rs`) -/

/-- Persisted OTA record: `{current_version, active_slot}`. -/
structure OtaState where
  current_version : String
  active_slot : String
deriving DecidableEq, Repr

/-- Wire type `types::FirmwareMetadata`. -/
structure FirmwareMetadata where
  version : String
  checksum : String
  url : String
deriving DecidableEq, Repr

/-- Outcome of `net::fetch_latest_firmware`: transport error, 204/empty body
("no new firmware"), or metadata. -/
inductive FetchResult where
  | fetchErr : FetchResult
  | noUpdate : FetchResult
  | available : FirmwareMetadata → FetchResult
deriving DecidableEq, Repr

/-- Outcome of `net::download_firmware`: error or the binary bytes. -/
inductive DownloadResult where
  | downloadErr : DownloadResult
  | ok : List Nat → DownloadResult
deriving DecidableEq, Repr

/-- Environment of one `check_for_update` call: the results of the fallible
operations it may perform, in program order. `writeOk` covers
`fs::create_dir_all` plus the firmware-file `fs::write`; `saveOk` covers
`OtaState::save`. -/
structure OtaEnv where
  fetch : FetchResult
  download : DownloadResult
  writeOk : Bool
  saveOk : Bool
deriving DecidableEq, Repr

/-- Everything one `check_for_update` call did: the in-memory `OtaState`
when the call ends, what (if anything) was durably written to the OTA state
file and the firmware directory, whether a download was attempted, whether
`std::process::exit(0)` ran, and the `Result` value returned (an `exit`
never returns; its `returned` field is the `Ok` the state machine would
produce). -/
structure OtaOutcome where
  state : OtaState
  persisted : Option OtaState
  firmwareSaved : Option (String × List Nat)
  downloadAttempted : Bool
  exited : Bool
  returned : Except Unit Unit

/-- Slot swap as written in the source:
`if active_slot == "A" { "B" } else { "A" }`. -/
def toggleSlot (slot : String) : String :=
  if slot = "A" then "B" else "A"

/-- Model of `ota::check_for_update`, with the fallible calls replaced by the `env`
record. Mirrors the source control flow: fetch metadata; if the version
differs, download; on download success write the firmware file, then mutate
the in-memory state to the new version and the toggled slot, save it, and
exit. Errors from the file writes propagate with `?` (the mutation happens
after the firmware write and before the save, exactly as in the source);
fetch and download errors are caught and logged, returning `Ok`. -/
def check_for_update (env : OtaEnv) (st : OtaState) : OtaOutcome :=
  match env.fetch with
  | .available m =>
    if m.version ≠ st.current_version then
      match env.download with
      | .ok data =>
        if env.writeOk then
          let st' : OtaState :=
            { current_version := m.version, active_slot := toggleSlot st.active_slot }
          if env.saveOk then
            { state := st', persisted := some st',
              firmwareSaved := some (m.version, data),
              downloadAttempted := true, exited := true, returned := .ok () }
          else
            { state := st', persisted := none,
              firmwareSaved := some (m.version, data),
              downloadAttempted := true, exited := false, returned := .error () }
        else
          { state := st, persisted := none, firmwareSaved := none,
            downloadAttempted := true, exited := false, returned := .error () }
      | .downloadErr =>
          { state := st, persisted := none, firmwareSaved := none,
            downloadAttempted := true, exited := false, returned := .ok () }
    else
      { state := st, persisted := none, firmwareSaved := none,
        downloadAttempted := false, exited := false, returned := .ok () }
  | .noUpdate =>
      { state := st, persisted := none, firmwareSaved := none,
        downloadAttempted := false, exited := false, returned := .ok () }
  | .fetchErr =>
      { state := st, persisted := none, firmwareSaved := none,
        downloadAttempted := false, exited := false, returned := .ok () }

/-- Whether a `check_for_update` run takes the full success path
(new version, download ok, firmware write ok, state save ok). -/
def isSuccessRun (env : OtaEnv) (st : OtaState) : Bool :=
  match env.fetch, env.download with
  | .available m, .ok _ =>
      (m.version != st.current_version) && env.writeOk && env.saveOk
  | _, _ => false

/-! ## Config and shadow types (`config.rs`, `types.rs`, `net.rs`) -/

/-- Persisted device configuration, `config::Config` (`device_config.json`). -/
structure Config where
  device_id : String
  auth_token : Option String
  backend_url : String
  sample_interval_secs : Nat
  upload_interval_secs : Nat
  heartbeat_interval_secs : Nat
  ota_check_interval_secs : Nat
  region : Option String
  hardware_rev : Option String
  desired_shadow_state : Option Json
  reported_shadow_state : Option Json
  chaos_flags : Option Json

/-- Wire type `types::DesiredState`: heartbeat response carrying interval overrides. -/
structure DesiredState where
  desired_version : Option String
  desired_sample_interval_secs : Nat
  desired_upload_interval_secs : Nat
  desired_heartbeat_interval_secs : Nat

/-- Wire type `DeviceShadow`: the document pair returned by the shadow fetch. -/
structure DeviceShadow where
  desired : Option Json
  reported : Option Json

/-- The in-memory state the agent loop threads through its ticks: the live
`Config`, the durably persisted copy of it (`device_config.json` content,
`none` if the file holds nothing relevant), the telemetry store, the OTA
state, and the loop's local interval variables and `current_reported_state`
document (`main.rs` keeps the live periods in locals, distinct from the
`Config` fields they were initialised from). -/
structure AgentState where
  config : Config
  savedConfig : Option Config
  store : Store
  otaState : OtaState
  sample_interval_secs : Nat
  upload_interval_secs : Nat
  heartbeat_interval_secs : Nat
  current_reported_state : List (String × Json)

/-- The `random_error` chaos flag check used by the upload and heartbeat
ticks: `chaos_flags.get("random_error") == Some(Bool(true))`. -/
def chaosRandomError (flags : Option Json) : Bool :=
  match flags with
  | some c =>
    match c.get "random_error" with
    | some (.bool b) => b
    | _ => false
  | none => false

/-! ## Tick bodies of the agent loop (`main.rs`) -/

/-- Sample tick: generate a measurement (its random sensor content is an
input here) tagged with the running firmware version, and append it to the
local store. -/
def sampleTick (m : Measurement) (s : AgentState) : AgentState :=
  let tagged : Measurement :=
    { m with firmware_version := some s.otaState.current_version }
  { s with store := append_measurement s.store tagged }

/-- What an upload tick did. `drained`/`reinserted` list the measurements
taken out of and put back into the store; `ingestSent` is the payload of the
ingest call when one was issued. -/
structure UploadEffects where
  injected : Bool
  drained : List Measurement
  ingestSent : Option (List Measurement)
  reinserted : List Measurement

/-- Upload tick. `rngHit` is the 10% chaos coin toss; `ingest` the result
of `net::send_ingest` when reached. On chaos injection the tick is skipped.
Otherwise drain a batch of 100; if empty, nothing is sent; on ingest
success the drained batch is gone; on ingest failure every drained
measurement is appended back (new ids, at the tail). -/
def uploadTick (rngHit : Bool) (ingest : Except Unit Unit) (s : AgentState) :
    AgentState × UploadEffects :=
  if chaosRandomError s.config.chaos_flags && rngHit then
    (s, ⟨true, [], none, []⟩)
  else
    match get_and_clear_measurements s.store 100 with
    | (ms, store') =>
      if ms.isEmpty then
        ({ s with store := store' }, ⟨false, [], none, []⟩)
      else
        match ingest with
        | .ok _ => ({ s with store := store' }, ⟨false, ms, some ms, []⟩)
        | .error _ =>
            ({ s with store := appendAll store' ms }, ⟨false, ms, none, ms⟩)

/-- What a heartbeat tick did: whether chaos skipped it, which live timers
were replaced, and the persist call it issued (the source issues none). -/
structure HeartbeatEffects where
  injected : Bool
  sampleReset : Bool
  uploadReset : Bool
  heartbeatReset : Bool
  persistCall : Option Config

/-- Heartbeat tick. On chaos injection or a failed heartbeat call nothing
changes. On success each desired interval that differs from the live local
value replaces it and restarts that timer; nothing is written to the
`Config` or to disk in this tick. -/
def heartbeatTick (rngHit : Bool) (resp : Except Unit DesiredState)
    (s : AgentState) : AgentState × HeartbeatEffects :=
  if chaosRandomError s.config.chaos_flags && rngHit then
    (s, ⟨true, false, false, false, none⟩)
  else
    match resp with
    | .error _ => (s, ⟨false, false, false, false, none⟩)
    | .ok d =>
      let sNew := d.desired_sample_interval_secs
      let uNew := d.desired_upload_interval_secs
      let hNew := d.desired_heartbeat_interval_secs
      let sr := sNew ≠ s.sample_interval_secs
      let ur := uNew ≠ s.upload_interval_secs
      let hr := hNew ≠ s.heartbeat_interval_secs
      ({ s with
          sample_interval_secs := if sr then sNew else s.sample_interval_secs,
          upload_interval_secs := if ur then uNew else s.upload_interval_secs,
          heartbeat_interval_secs := if hr then hNew else s.heartbeat_interval_secs },
       ⟨false, decide sr, decide ur, decide hr, none⟩)

/-- OTA tick: run `check_for_update` on the current OTA state. -/
def otaTick (env : OtaEnv) (s : AgentState) : AgentState × OtaOutcome :=
  let r := check_for_update env s.otaState
  ({ s with otaState := r.state }, r)

/-- One desired-interval application of the shadow tick: if the key is
present, a number, convertible with `as_u64`, and different from the live
value, adopt it and restart the timer. Returns the new live value and
whether the timer was reset. -/
def applyIntervalKey (desired : Json) (key : String) (cur : Nat) : Nat × Bool :=
  match desired.get key with
  | some (.num n) =>
    match asU64 n with
    | some v => if v ≠ cur then (v, true) else (cur, false)
    | _ => (cur, false)
  | _ => (cur, false)

/-- What a shadow-check tick did: timer resets, the `Config` content handed
to `save_to_file` (if the tick reached the persist), and the `reported`
document sent to the backend's PATCH endpoint (if the tick reached it). -/
structure ShadowEffects where
  sampleReset : Bool
  uploadReset : Bool
  heartbeatReset : Bool
  persistCall : Option Config
  patchCall : Option Json

/-- Effect record of a tick that did nothing. -/
def ShadowEffects.none : ShadowEffects := ⟨false, false, false, Option.none, Option.none⟩

/-- Shadow-check tick. `saveOk` is the result of `Config::save_to_file`
(a failure is logged and the tick continues). On a fetch error or an absent
`desired` document nothing happens. Otherwise: `chaos_flags` is replaced by
`desired.chaos_flags` or cleared when absent; each interval key present and
different updates the live period; the `reported` document is refreshed with
the three live periods and the active chaos flags; the `Config` (with the
new chaos flags and reported document) is persisted; and the reported
document is PATCHed to the backend. -/
def shadowTick (saveOk : Bool) (resp : Except Unit DeviceShadow)
    (s : AgentState) : AgentState × ShadowEffects :=
  match resp with
  | .error _ => (s, ShadowEffects.none)
  | .ok shadow =>
    match shadow.desired with
    | Option.none => (s, ShadowEffects.none)
    | some desired =>
      let chaos' : Option Json := desired.get "chaos_flags"
      let sRes := applyIntervalKey desired "sample_interval_secs" s.sample_interval_secs
      let uRes := applyIntervalKey desired "upload_interval_secs" s.upload_interval_secs
      let hRes := applyIntervalKey desired "heartbeat_interval_secs" s.heartbeat_interval_secs
      let rep :=
        setField
          (setField
            (setField
              (setField s.current_reported_state "sample_interval_secs" (.num sRes.1))
              "upload_interval_secs" (.num uRes.1))
            "heartbeat_interval_secs" (.num hRes.1))
          "chaos_flags" (chaos'.getD (.obj []))
      let config' := { s.config with
        chaos_flags := chaos', reported_shadow_state := some (.obj rep) }
      ({ s with
          config := config',
          savedConfig := if saveOk then some config' else s.savedConfig,
          sample_interval_secs := sRes.1,
          upload_interval_secs := uRes.1,
          heartbeat_interval_secs := hRes.1,
          current_reported_state := rep },
       ⟨sRes.2, uRes.2, hRes.2, some config', some (.obj rep)⟩)

/-- One scheduler dispatch: which tick fired and the outcomes of the
fallible operations that tick performs. -/
inductive TickInput where
  | sample : Measurement → TickInput
  | upload : Bool → Except Unit Unit → TickInput
  | heartbeat : Bool → Except Unit DesiredState → TickInput
  | otaCheck : OtaEnv → TickInput
  | shadowCheck : Bool → Except Unit DeviceShadow → TickInput

/-- Apply one tick to the agent state (dropping the effect record). -/
def applyTick (t : TickInput) (s : AgentState) : AgentState :=
  match t with
  | .sample m => sampleTick m s
  | .upload rngHit ingest => (uploadTick rngHit ingest s).1
  | .heartbeat rngHit resp => (heartbeatTick rngHit resp s).1
  | .otaCheck env => (otaTick env s).1
  | .shadowCheck saveOk resp => (shadowTick saveOk resp s).1

/-- Run a sequence of scheduler dispatches. -/
def runTicks (ts : List TickInput) (s : AgentState) : AgentState :=
  ts.foldl (fun st t => applyTick t st) s

/-! ## Concrete fixtures used by witnesses and counterexamples -/

/-- A concrete measurement distinguished by its sequence number. -/
def mkMeas (i : Nat) : Measurement :=
  { timestamp := "2026-01-01T00:00:00Z", temp := 20, humidity := 50,
    battery := 1, sequence_number := i, latitude := Option.none,
    longitude := Option.none, speed := Option.none,
    firmware_version := Option.none }

/-- A concrete registered `Config` (the shape written right after a
successful registration). -/
def cfg0 : Config :=
  { device_id := "dev-1", auth_token := some "tok-1",
    backend_url := "http://localhost:8000", sample_interval_secs := 10,
    upload_interval_secs := 60, heartbeat_interval_secs := 30,
    ota_check_interval_secs := 300, region := Option.none,
    hardware_rev := Option.none, desired_shadow_state := some (.obj []),
    reported_shadow_state := some (.obj []), chaos_flags := Option.none }

/-- A concrete agent-loop state right after startup with `cfg0` persisted. -/
def agent0 : AgentState :=
  { config := cfg0, savedConfig := some cfg0, store := ⟨0, []⟩,
    otaState := ⟨"1.0.0", "A"⟩, sample_interval_secs := 10,
    upload_interval_secs := 60, heartbeat_interval_secs := 30,
    current_reported_state := [] }

/-! ## Storage lemmas -/

theorem storeWF_empty (n : Nat) : StoreWF ⟨n, []⟩ := by
  constructor
  · exact List.Pairwise.nil
  · intro r hr; cases hr

theorem storeWF_append (s : Store) (m : Measurement) (h : StoreWF s) :
    StoreWF (append_measurement s m) := by
  obtain ⟨hp, hb⟩ := h
  constructor
  · rw [append_measurement]
    refine List.pairwise_append.mpr ⟨hp, List.pairwise_singleton _ _, ?_⟩
    intro a ha b hb'
    simp only [List.mem_singleton] at hb'
    subst hb'
    exact hb a ha
  · intro r hr
    rw [append_measurement] at hr
    simp only [List.mem_append, List.mem_singleton] at hr
    cases hr with
    | inl h' => exact Nat.lt_succ_of_lt (hb r h')
    | inr h' => subst h'; exact Nat.lt_succ_self _

theorem storeWF_appendAll (s : Store) (ms : List Measurement) (h : StoreWF s) :
    StoreWF (appendAll s ms) := by
  induction ms generalizing s with
  | nil => exact h
  | cons m ms ih => exact ih _ (storeWF_append s m h)

theorem appendAll_rows_map_snd (s : Store) (ms : List Measurement) :
    (appendAll s ms).rows.map Prod.snd = s.rows.map Prod.snd ++ ms := by
  induction ms generalizing s with
  | nil => simp [appendAll]
  | cons m ms ih =>
      have : appendAll s (m :: ms) = appendAll (append_measurement s m) ms := rfl
      rw [this, ih, append_measurement]
      simp

theorem appendAll_rows_length (s : Store) (ms : List Measurement) :
    (appendAll s ms).rows.length = s.rows.length + ms.length := by
  have h := congrArg List.length (appendAll_rows_map_snd s ms)
  simpa using h

theorem insertById_front (x : Nat × Measurement) (l : List (Nat × Measurement))
    (h : ∀ y ∈ l, x.1 < y.1) : insertById x l = x :: l := by
  cases l with
  | nil => rfl
  | cons y ys =>
      rw [insertById]
      rw [if_pos (Nat.le_of_lt (h y (List.mem_cons_self y ys)))]

/-- On a table whose rows are already ascending by id (the invariant the
agent maintains), the `ORDER BY id` sort is the identity. -/
theorem sortById_of_pairwise (rs : List (Nat × Measurement))
    (h : rs.Pairwise (fun a b => a.1 < b.1)) : sortById rs = rs := by
  induction rs with
  | nil => rfl
  | cons x xs ih =>
      rw [List.pairwise_cons] at h
      have : sortById (x :: xs) = insertById x (sortById xs) := rfl
      rw [this, ih h.2, insertById_front x xs h.1]

theorem filter_not_contains_split (t d : List (Nat × Measurement))
    (ids : List Nat) (h1 : ∀ a ∈ t, a.1 ∈ ids) (h2 : ∀ b ∈ d, b.1 ∉ ids) :
    (t ++ d).filter (fun r => !(ids.contains r.1)) = d := by
  rw [List.filter_append]
  have ht : t.filter (fun r => !(ids.contains r.1)) = [] := by
    rw [List.filter_eq_nil_iff]
    intro a ha
    simp [h1 a ha]
  have hd : d.filter (fun r => !(ids.contains r.1)) = d := by
    rw [List.filter_eq_self]
    intro b hb
    simp [h2 b hb]
  rw [ht, hd, List.nil_append]

theorem filter_drain_of_pairwise (rs : List (Nat × Measurement)) (n : Nat)
    (h : rs.Pairwise (fun a b => a.1 < b.1)) :
    rs.filter (fun r => !(((rs.take n).map Prod.fst).contains r.1)) = rs.drop n := by
  have hsplit := List.take_append_drop n rs
  have hcross : ∀ a ∈ rs.take n, ∀ b ∈ rs.drop n, a.1 < b.1 := by
    have h' := h
    rw [← hsplit, List.pairwise_append] at h'
    exact h'.2.2
  have h1 : ∀ a ∈ rs.take n, a.1 ∈ (rs.take n).map Prod.fst :=
    fun a ha => List.mem_map_of_mem Prod.fst ha
  have h2 : ∀ b ∈ rs.drop n, b.1 ∉ (rs.take n).map Prod.fst := by
    intro b hb hmem
    simp only [List.mem_map] at hmem
    obtain ⟨a, ha, hab⟩ := hmem
    have := hcross a ha b hb
    omega
  calc rs.filter (fun r => !(((rs.take n).map Prod.fst).contains r.1))
      = (rs.take n ++ rs.drop n).filter
          (fun r => !(((rs.take n).map Prod.fst).contains r.1)) := by rw [hsplit]
    _ = rs.drop n := filter_not_contains_split _ _ _ h1 h2

/-- Characterisation of `get_and_clear_measurements` on a well-formed store:
it returns the measurements of the first `n` rows in id order and leaves
exactly the remaining rows. -/
theorem get_and_clear_spec (s : Store) (n : Nat) (h : StoreWF s) :
    get_and_clear_measurements s n =
      ((s.rows.take n).map Prod.snd, ⟨s.nextId, s.rows.drop n⟩) := by
  rw [get_and_clear_measurements]
  rw [sortById_of_pairwise s.rows h.1]
  rw [filter_drain_of_pairwise s.rows n h.1]


theorem getField_setField_self (fs : List (String × Json)) (k : String)
    (v : Json) : getField (setField fs k v) k = some v := by
  induction fs with
  | nil => simp [setField, getField]
  | cons f fs ih =>
      by_cases h : f.1 = k
      · simp [setField, getField, h]
      · simp [setField, getField, h, ih]

theorem getField_setField_ne (fs : List (String × Json)) (k k' : String)
    (v : Json) (h : k ≠ k') : getField (setField fs k v) k' = getField fs k' := by
  induction fs with
  | nil => simp [setField, getField, h]
  | cons f fs ih =>
      by_cases h1 : f.1 = k
      · simp [setField, getField, h1, h]
      · by_cases h2 : f.1 = k'
        · simp [setField, getField, h1, h2, Ne.symm h]
        · simp [setField, getField, h1, h2, ih]

/-- C2. For every store holding N appended measurements with N at most the
batch size, `get_and_clear_measurements` returns exactly those N
measurements in append order, deletes exactly those records in one
transaction, and leaves the store empty afterward. (The transaction is
atomic by construction in this pure model; the id order of the N appends is
the append order.) -/
theorem c2_fifo_drain (ms : List Measurement) (n n0 : Nat)
    (h : ms.length ≤ n) :
    (get_and_clear_measurements (appendAll ⟨n0, []⟩ ms) n).1 = ms ∧
    (get_and_clear_measurements (appendAll ⟨n0, []⟩ ms) n).2.rows = [] := by
  have hwf := storeWF_appendAll ⟨n0, []⟩ ms (storeWF_empty n0)
  have hspec := get_and_clear_spec (appendAll ⟨n0, []⟩ ms) n hwf
  have hms : (appendAll ⟨n0, []⟩ ms).rows.map Prod.snd = ms := by
    simpa using appendAll_rows_map_snd ⟨n0, []⟩ ms
  have hlen : (appendAll ⟨n0, []⟩ ms).rows.length = ms.length := by
    simpa using appendAll_rows_length ⟨n0, []⟩ ms
  have hle : (appendAll ⟨n0, []⟩ ms).rows.length ≤ n := by rw [hlen]; exact h
  constructor
  · have h1 := congrArg Prod.fst hspec
    simpa [List.take_of_length_le hle, hms] using h1
  · have h2 := congrArg (fun p : List Measurement × Store => p.2.rows) hspec
    simpa [List.drop_eq_nil_of_le hle] using h2

/-- Witness for C2 at a concrete input: three appended measurements, batch
size five. -/
theorem c2_fifo_drain_witness :
    (get_and_clear_measurements
        (appendAll ⟨0, []⟩ [mkMeas 0, mkMeas 1, mkMeas 2]) 5).1 =
      [mkMeas 0, mkMeas 1, mkMeas 2] ∧
    (get_and_clear_measurements
        (appendAll ⟨0, []⟩ [mkMeas 0, mkMeas 1, mkMeas 2]) 5).2.rows = [] :=
  c2_fifo_drain [mkMeas 0, mkMeas 1, mkMeas 2] 5 0 (by decide)

/-- C3. On an upload tick whose ingest call fails after a drain (no chaos
skip), every drained measurement is appended back at the tail as a new
record: the store holds as many measurements as before the tick, the rows
are the never-drained ones followed by the re-appended batch, and no
measurement content is lost (the contents are a permutation of the
originals). Instantiated at 150 rows and batch 100 this is the spec's
150 = 50 + 100 scenario. -/
theorem c3_reenqueue_on_failure (rngHit : Bool) (s : AgentState)
    (hwf : StoreWF s.store)
    (hinj : (chaosRandomError s.config.chaos_flags && rngHit) = false)
    (hne : s.store.rows ≠ []) :
    (uploadTick rngHit (.error ()) s).1.store.rows.length = s.store.rows.length ∧
    (uploadTick rngHit (.error ()) s).1.store.rows.map Prod.snd =
      (s.store.rows.drop 100).map Prod.snd ++ (s.store.rows.take 100).map Prod.snd ∧
    List.Perm ((uploadTick rngHit (.error ()) s).1.store.rows.map Prod.snd)
      (s.store.rows.map Prod.snd) ∧
    (uploadTick rngHit (.error ()) s).2.reinserted =
      (uploadTick rngHit (.error ()) s).2.drained := by
  have hspec := get_and_clear_spec s.store 100 hwf
  have htake : (s.store.rows.take 100).map Prod.snd ≠ [] := by
    simp only [ne_eq, List.map_eq_nil_iff, List.take_eq_nil_iff]
    intro hc
    cases hc with
    | inl h100 => cases h100
    | inr hnil => exact hne hnil
  have hie : ((s.store.rows.take 100).map Prod.snd).isEmpty = false := by
    cases hl : (s.store.rows.take 100).map Prod.snd with
    | nil => exact absurd hl htake
    | cons a l => rfl
  have hrun : uploadTick rngHit (.error ()) s = ({ s with store := appendAll { nextId := s.store.nextId, rows := s.store.rows.drop 100 } ((s.store.rows.take 100).map Prod.snd) }, { injected := false, drained := (s.store.rows.take 100).map Prod.snd, ingestSent := none, reinserted := (s.store.rows.take 100).map Prod.snd }) := by
    rw [uploadTick]
    simp only [hinj, Bool.false_eq_true, if_false, hspec, hie]
  rw [hrun]
  have hmap := appendAll_rows_map_snd ⟨s.store.nextId, s.store.rows.drop 100⟩
      ((s.store.rows.take 100).map Prod.snd)
  refine ⟨?_, ?_, ?_, rfl⟩
  · have hlen := congrArg List.length hmap
    simp only [List.length_map, List.length_append, List.length_drop,
      List.length_take] at hlen ⊢
    omega
  · simpa using hmap
  · have h1 : (appendAll ⟨s.store.nextId, s.store.rows.drop 100⟩
        ((s.store.rows.take 100).map Prod.snd)).rows.map Prod.snd =
        (s.store.rows.drop 100).map Prod.snd ++
          (s.store.rows.take 100).map Prod.snd := by simpa using hmap
    rw [h1]
    conv_rhs => rw [← List.take_append_drop 100 s.store.rows]
    rw [List.map_append]
    exact List.perm_append_comm

/-- Witness for C3 at a concrete input: a store of three rows, a failed
ingest, no chaos injection. -/
theorem c3_reenqueue_on_failure_witness :
    (uploadTick false (.error ()) { agent0 with store := ⟨3, [(0, mkMeas 0), (1, mkMeas 1), (2, mkMeas 2)]⟩ }).1.store.rows.length = 3 ∧
    List.Perm ((uploadTick false (.error ()) { agent0 with store := ⟨3, [(0, mkMeas 0), (1, mkMeas 1), (2, mkMeas 2)]⟩ }).1.store.rows.map Prod.snd)
      [mkMeas 0, mkMeas 1, mkMeas 2] := by
  have h := c3_reenqueue_on_failure false
      { agent0 with store := ⟨3, [(0, mkMeas 0), (1, mkMeas 1), (2, mkMeas 2)]⟩ }
      ⟨by decide, by decide⟩ (by rfl) (by decide)
  exact ⟨h.1, h.2.2.1⟩

/-- C1. When the fetched metadata version differs from the current one and
the download, firmware write and state save all succeed, `check_for_update`
toggles the active slot (A becomes B, B becomes A), sets `current_version`
to the metadata version, persists exactly the new state, and only then
terminates the process (`exited` holds only on this path, after the
persist succeeded). -/
theorem c1_ota_switch (m : FirmwareMetadata) (data : List Nat) (st : OtaState)
    (h : m.version ≠ st.current_version) :
    (check_for_update ⟨.available m, .ok data, true, true⟩ st).state.current_version = m.version ∧
    (check_for_update ⟨.available m, .ok data, true, true⟩ st).state.active_slot = toggleSlot st.active_slot ∧
    (st.active_slot = "A" → (check_for_update ⟨.available m, .ok data, true, true⟩ st).state.active_slot = "B") ∧
    (st.active_slot = "B" → (check_for_update ⟨.available m, .ok data, true, true⟩ st).state.active_slot = "A") ∧
    (check_for_update ⟨.available m, .ok data, true, true⟩ st).persisted =
      some (check_for_update ⟨.available m, .ok data, true, true⟩ st).state ∧
    (check_for_update ⟨.available m, .ok data, true, true⟩ st).exited = true := by
  have hrun : check_for_update ⟨.available m, .ok data, true, true⟩ st = { state := ⟨m.version, toggleSlot st.active_slot⟩, persisted := some ⟨m.version, toggleSlot st.active_slot⟩, firmwareSaved := some (m.version, data), downloadAttempted := true, exited := true, returned := .ok () } := by
    rw [check_for_update]
    simp [h]
  rw [hrun]
  refine ⟨rfl, rfl, ?_, ?_, rfl, rfl⟩
  · intro hA
    simp [toggleSlot, hA]
  · intro hB
    rw [hB]
    simp [toggleSlot]

/-- Witness for C1 at a concrete input: version 1.0.0 in slot A updating
to 2.0.0. -/
theorem c1_ota_switch_witness :
    (check_for_update ⟨.available ⟨"2.0.0", "sum", "url"⟩, .ok [7], true, true⟩ ⟨"1.0.0", "A"⟩).state.current_version = "2.0.0" ∧
    (check_for_update ⟨.available ⟨"2.0.0", "sum", "url"⟩, .ok [7], true, true⟩ ⟨"1.0.0", "A"⟩).state.active_slot = toggleSlot "A" ∧
    ((("A" : String) = "A") → (check_for_update ⟨.available ⟨"2.0.0", "sum", "url"⟩, .ok [7], true, true⟩ ⟨"1.0.0", "A"⟩).state.active_slot = "B") ∧
    ((("A" : String) = "B") → (check_for_update ⟨.available ⟨"2.0.0", "sum", "url"⟩, .ok [7], true, true⟩ ⟨"1.0.0", "A"⟩).state.active_slot = "A") ∧
    (check_for_update ⟨.available ⟨"2.0.0", "sum", "url"⟩, .ok [7], true, true⟩ ⟨"1.0.0", "A"⟩).persisted =
      some (check_for_update ⟨.available ⟨"2.0.0", "sum", "url"⟩, .ok [7], true, true⟩ ⟨"1.0.0", "A"⟩).state ∧
    (check_for_update ⟨.available ⟨"2.0.0", "sum", "url"⟩, .ok [7], true, true⟩ ⟨"1.0.0", "A"⟩).exited = true :=
  c1_ota_switch ⟨"2.0.0", "sum", "url"⟩ [7] ⟨"1.0.0", "A"⟩ (by decide)

/-- C9. When the fetched metadata version equals the current one,
`check_for_update` changes nothing: the state is returned untouched, no
download is attempted, nothing is written to the OTA file or the firmware
directory, and the process does not exit, for every download/write/save
environment. -/
theorem c9_ota_noop (m : FirmwareMetadata) (dl : DownloadResult) (w sv : Bool)
    (st : OtaState) (h : m.version = st.current_version) :
    check_for_update ⟨.available m, dl, w, sv⟩ st =
      { state := st, persisted := none, firmwareSaved := none, downloadAttempted := false, exited := false, returned := .ok () } := by
  rw [check_for_update]
  simp [h]

/-- Witness for C9 at a concrete input: metadata version equal to the
running version. -/
theorem c9_ota_noop_witness :
    check_for_update ⟨.available ⟨"1.0.0", "sum", "url"⟩, .downloadErr, false, true⟩ ⟨"1.0.0", "A"⟩ =
      { state := ⟨"1.0.0", "A"⟩, persisted := none, firmwareSaved := none, downloadAttempted := false, exited := false, returned := .ok () } :=
  c9_ota_noop ⟨"1.0.0", "sum", "url"⟩ .downloadErr false true ⟨"1.0.0", "A"⟩ rfl

/-- C6 counterexample. A concrete failing OTA check — new version available,
download and firmware write succeed, but the `OtaState` persist fails — does
not exit and does not write the state file, yet the in-memory `OtaState` no
longer holds the old `current_version` (it was mutated before the failed
save), contradicting the claim that every non-terminal failure retains the
old version both in memory and on disk. -/
theorem c6_counterexample :
    (check_for_update ⟨.available ⟨"2.0.0", "sum", "url"⟩, .ok [7], true, false⟩ ⟨"1.0.0", "A"⟩).exited = false ∧
    (check_for_update ⟨.available ⟨"2.0.0", "sum", "url"⟩, .ok [7], true, false⟩ ⟨"1.0.0", "A"⟩).persisted = none ∧
    (check_for_update ⟨.available ⟨"2.0.0", "sum", "url"⟩, .ok [7], true, false⟩ ⟨"1.0.0", "A"⟩).state.current_version ≠ "1.0.0" ∧
    (check_for_update ⟨.available ⟨"2.0.0", "sum", "url"⟩, .ok [7], true, false⟩ ⟨"1.0.0", "A"⟩).state.active_slot ≠ "A" :=
  ⟨rfl, rfl, by decide, by decide⟩

/-- C6 as amended. For every OTA check that does not take the full success
path: the process does not exit and nothing is written to the OTA state
file, and the in-memory state either is unchanged (metadata fetch error,
no-update response, equal version, download error, firmware-file write
error) or — exactly when the firmware write succeeded and the final persist
failed — already carries the new version and the toggled slot. -/
theorem c6_failed_check_frame (env : OtaEnv) (st : OtaState)
    (h : isSuccessRun env st = false) :
    (check_for_update env st).exited = false ∧
    (check_for_update env st).persisted = none ∧
    ((check_for_update env st).state = st ∨
      (env.writeOk = true ∧ env.saveOk = false ∧
        ∃ m data, env.fetch = .available m ∧ env.download = .ok data ∧
          m.version ≠ st.current_version ∧
          (check_for_update env st).state = ⟨m.version, toggleSlot st.active_slot⟩)) := by
  obtain ⟨fetch, download, w, sv⟩ := env
  cases fetch with
  | fetchErr => exact ⟨rfl, rfl, Or.inl rfl⟩
  | noUpdate => exact ⟨rfl, rfl, Or.inl rfl⟩
  | available m =>
    by_cases hv : m.version = st.current_version
    · have hrun : check_for_update ⟨.available m, download, w, sv⟩ st = { state := st, persisted := none, firmwareSaved := none, downloadAttempted := false, exited := false, returned := .ok () } := by
        rw [check_for_update]
        simp [hv]
      rw [hrun]
      exact ⟨rfl, rfl, Or.inl rfl⟩
    · cases download with
      | downloadErr =>
          have hrun : check_for_update ⟨.available m, .downloadErr, w, sv⟩ st = { state := st, persisted := none, firmwareSaved := none, downloadAttempted := true, exited := false, returned := .ok () } := by
            rw [check_for_update]
            simp [hv]
          rw [hrun]
          exact ⟨rfl, rfl, Or.inl rfl⟩
      | ok data =>
          cases w with
          | false =>
              have hrun : check_for_update ⟨.available m, .ok data, false, sv⟩ st = { state := st, persisted := none, firmwareSaved := none, downloadAttempted := true, exited := false, returned := .error () } := by
                rw [check_for_update]
                simp [hv]
              rw [hrun]
              exact ⟨rfl, rfl, Or.inl rfl⟩
          | true =>
              cases sv with
              | true =>
                  exfalso
                  rw [isSuccessRun] at h
                  simp only [Bool.and_eq_false_iff] at h
                  rcases h with h | h
                  · rcases h with h | h
                    · rw [bne_eq_false_iff_eq] at h
                      exact hv h
                    · cases h
                  · cases h
              | false =>
                  have hrun : check_for_update ⟨.available m, .ok data, true, false⟩ st = { state := ⟨m.version, toggleSlot st.active_slot⟩, persisted := none, firmwareSaved := some (m.version, data), downloadAttempted := true, exited := false, returned := .error () } := by
                    rw [check_for_update]
                    simp [hv]
                  rw [hrun]
                  exact ⟨rfl, rfl, Or.inr ⟨rfl, rfl, m, data, rfl, rfl, hv, rfl⟩⟩

/-- Witness for the amended C6 at a concrete input: a metadata fetch
error leaves everything untouched. -/
theorem c6_failed_check_frame_witness :
    (check_for_update ⟨.fetchErr, .downloadErr, true, true⟩ ⟨"1.0.0", "A"⟩).exited = false ∧
    (check_for_update ⟨.fetchErr, .downloadErr, true, true⟩ ⟨"1.0.0", "A"⟩).persisted = none ∧
    ((check_for_update ⟨.fetchErr, .downloadErr, true, true⟩ ⟨"1.0.0", "A"⟩).state = ⟨"1.0.0", "A"⟩ ∨
      ((true : Bool) = true ∧ (true : Bool) = false ∧
        ∃ m data, (FetchResult.fetchErr : FetchResult) = .available m ∧
          (DownloadResult.downloadErr : DownloadResult) = .ok data ∧
          m.version ≠ "1.0.0" ∧
          (check_for_update ⟨.fetchErr, .downloadErr, true, true⟩ ⟨"1.0.0", "A"⟩).state = ⟨m.version, toggleSlot "A"⟩)) :=
  c6_failed_check_frame ⟨.fetchErr, .downloadErr, true, true⟩ ⟨"1.0.0", "A"⟩ rfl

/-- What every shadow tick with a present `desired` document does,
independent of its content: the reported document is refreshed with the
(new) live periods and the active chaos flags, the full `Config` (carrying
the new chaos flags and the refreshed reported document) is handed to the
persist call, the refreshed reported document is PATCHed to the backend,
and on persist success the durable config equals the live one. -/
theorem shadowTick_desired_effects (saveOk : Bool) (shadow : DeviceShadow)
    (d : Json) (s : AgentState) (hd : shadow.desired = some d) :
    getField (shadowTick saveOk (.ok shadow) s).1.current_reported_state "sample_interval_secs" = some (.num ((shadowTick saveOk (.ok shadow) s).1.sample_interval_secs : Int)) ∧
    getField (shadowTick saveOk (.ok shadow) s).1.current_reported_state "upload_interval_secs" = some (.num ((shadowTick saveOk (.ok shadow) s).1.upload_interval_secs : Int)) ∧
    getField (shadowTick saveOk (.ok shadow) s).1.current_reported_state "heartbeat_interval_secs" = some (.num ((shadowTick saveOk (.ok shadow) s).1.heartbeat_interval_secs : Int)) ∧
    getField (shadowTick saveOk (.ok shadow) s).1.current_reported_state "chaos_flags" = some ((d.get "chaos_flags").getD (.obj [])) ∧
    (shadowTick saveOk (.ok shadow) s).1.config.chaos_flags = d.get "chaos_flags" ∧
    (shadowTick saveOk (.ok shadow) s).2.persistCall = some (shadowTick saveOk (.ok shadow) s).1.config ∧
    (shadowTick saveOk (.ok shadow) s).2.patchCall = some (.obj (shadowTick saveOk (.ok shadow) s).1.current_reported_state) ∧
    (shadowTick saveOk (.ok shadow) s).1.config.reported_shadow_state = some (.obj (shadowTick saveOk (.ok shadow) s).1.current_reported_state) ∧
    (saveOk = true → (shadowTick saveOk (.ok shadow) s).1.savedConfig = some (shadowTick saveOk (.ok shadow) s).1.config) := by
  refine ⟨?_, ?_, ?_, ?_, ?_, ?_, ?_, ?_, ?_⟩
  · simp only [shadowTick, hd]
    rw [getField_setField_ne _ _ _ _ (by decide),
        getField_setField_ne _ _ _ _ (by decide),
        getField_setField_ne _ _ _ _ (by decide),
        getField_setField_self]
  · simp only [shadowTick, hd]
    rw [getField_setField_ne _ _ _ _ (by decide),
        getField_setField_ne _ _ _ _ (by decide),
        getField_setField_self]
  · simp only [shadowTick, hd]
    rw [getField_setField_ne _ _ _ _ (by decide),
        getField_setField_self]
  · simp only [shadowTick, hd]
    rw [getField_setField_self]
  · simp only [shadowTick, hd]
  · simp only [shadowTick, hd]
  · simp only [shadowTick, hd]
  · simp only [shadowTick, hd]
  · intro hs
    simp only [shadowTick, hd, hs, if_true]

/-- C4. On a successful shadow fetch whose `desired` document is present
but carries no `chaos_flags` key, the shadow tick clears the device's
active chaos configuration (`config.chaos_flags` becomes `None`), whatever
it was before. -/
theorem c4_chaos_cleared (saveOk : Bool) (shadow : DeviceShadow) (d : Json)
    (s : AgentState) (hd : shadow.desired = some d)
    (hc : d.get "chaos_flags" = none) :
    (shadowTick saveOk (.ok shadow) s).1.config.chaos_flags = none := by
  have h := (shadowTick_desired_effects saveOk shadow d s hd).2.2.2.2.1
  rw [h, hc]

/-- Witness for C4 at a concrete input: a previously non-empty chaos
configuration is cleared by a desired document without the key. -/
theorem c4_chaos_cleared_witness :
    (shadowTick true (.ok ⟨some (.obj []), Option.none⟩) { agent0 with config := { cfg0 with chaos_flags := some (.obj [("random_error", .bool true)]) } }).1.config.chaos_flags = none :=
  c4_chaos_cleared true ⟨some (.obj []), Option.none⟩ (.obj [])
    { agent0 with config := { cfg0 with chaos_flags := some (.obj [("random_error", .bool true)]) } } rfl rfl

/-- C10. On a successful shadow fetch whose `DeviceShadow.desired` is
`None`, the shadow tick changes nothing at all — chaos flags, live periods,
reported document, persisted config — and issues neither a persist nor a
shadow PATCH. -/
theorem c10_no_desired_noop (saveOk : Bool) (shadow : DeviceShadow)
    (s : AgentState) (hd : shadow.desired = none) :
    shadowTick saveOk (.ok shadow) s = (s, ShadowEffects.none) := by
  rw [shadowTick, hd]

/-- Witness for C10 at a concrete input. -/
theorem c10_no_desired_noop_witness :
    shadowTick true (.ok ⟨Option.none, Option.none⟩) agent0 = (agent0, ShadowEffects.none) :=
  c10_no_desired_noop true ⟨Option.none, Option.none⟩ agent0 rfl

/-- C7. On a shadow tick whose `desired` document carries an interval value
equal to the currently live period — for any of the three interval keys —
that period is not replaced and its timer is not reset (the update is a
no-op when the value is unchanged), yet the tick still refreshes all three
reported interval keys and `chaos_flags`, persists the config, and pushes
the reported document to the backend. -/
theorem c7_interval_idempotent (shadow : DeviceShadow) (d : Json)
    (s : AgentState) (hd : shadow.desired = some d) :
    (∀ v : Int, d.get "sample_interval_secs" = some (.num v) →
        asU64 v = some s.sample_interval_secs →
        (shadowTick true (.ok shadow) s).2.sampleReset = false ∧
        (shadowTick true (.ok shadow) s).1.sample_interval_secs = s.sample_interval_secs) ∧
    (∀ v : Int, d.get "upload_interval_secs" = some (.num v) →
        asU64 v = some s.upload_interval_secs →
        (shadowTick true (.ok shadow) s).2.uploadReset = false ∧
        (shadowTick true (.ok shadow) s).1.upload_interval_secs = s.upload_interval_secs) ∧
    (∀ v : Int, d.get "heartbeat_interval_secs" = some (.num v) →
        asU64 v = some s.heartbeat_interval_secs →
        (shadowTick true (.ok shadow) s).2.heartbeatReset = false ∧
        (shadowTick true (.ok shadow) s).1.heartbeat_interval_secs = s.heartbeat_interval_secs) ∧
    getField (shadowTick true (.ok shadow) s).1.current_reported_state "sample_interval_secs" = some (.num ((shadowTick true (.ok shadow) s).1.sample_interval_secs : Int)) ∧
    getField (shadowTick true (.ok shadow) s).1.current_reported_state "upload_interval_secs" = some (.num ((shadowTick true (.ok shadow) s).1.upload_interval_secs : Int)) ∧
    getField (shadowTick true (.ok shadow) s).1.current_reported_state "heartbeat_interval_secs" = some (.num ((shadowTick true (.ok shadow) s).1.heartbeat_interval_secs : Int)) ∧
    getField (shadowTick true (.ok shadow) s).1.current_reported_state "chaos_flags" = some ((d.get "chaos_flags").getD (.obj [])) ∧
    (shadowTick true (.ok shadow) s).2.persistCall = some (shadowTick true (.ok shadow) s).1.config ∧
    (shadowTick true (.ok shadow) s).1.savedConfig = some (shadowTick true (.ok shadow) s).1.config ∧
    (shadowTick true (.ok shadow) s).2.patchCall = some (.obj (shadowTick true (.ok shadow) s).1.current_reported_state) := by
  have heff := shadowTick_desired_effects true shadow d s hd
  refine ⟨?_, ?_, ?_, heff.1, heff.2.1, heff.2.2.1, heff.2.2.2.1, heff.2.2.2.2.2.1, heff.2.2.2.2.2.2.2.2 rfl, heff.2.2.2.2.2.2.1⟩
  · intro v hs hv
    have happ : applyIntervalKey d "sample_interval_secs" s.sample_interval_secs = (s.sample_interval_secs, false) := by
      simp only [applyIntervalKey, hs, hv]
      simp
    constructor
    · simp only [shadowTick, hd, happ]
    · simp only [shadowTick, hd, happ]
  · intro v hu hv
    have happ : applyIntervalKey d "upload_interval_secs" s.upload_interval_secs = (s.upload_interval_secs, false) := by
      simp only [applyIntervalKey, hu, hv]
      simp
    constructor
    · simp only [shadowTick, hd, happ]
    · simp only [shadowTick, hd, happ]
  · intro v hh hv
    have happ : applyIntervalKey d "heartbeat_interval_secs" s.heartbeat_interval_secs = (s.heartbeat_interval_secs, false) := by
      simp only [applyIntervalKey, hh, hv]
      simp
    constructor
    · simp only [shadowTick, hd, happ]
    · simp only [shadowTick, hd, happ]

/-- Witness for C7 at a concrete input: a desired document carrying all
three interval keys with values equal to the live periods (10, 60, 30)
resets none of the three timers and still refreshes, persists and pushes
the reported document. -/
theorem c7_interval_idempotent_witness :
    (shadowTick true (.ok ⟨some (.obj [("sample_interval_secs", .num 10), ("upload_interval_secs", .num 60), ("heartbeat_interval_secs", .num 30)]), Option.none⟩) agent0).2.sampleReset = false ∧
    (shadowTick true (.ok ⟨some (.obj [("sample_interval_secs", .num 10), ("upload_interval_secs", .num 60), ("heartbeat_interval_secs", .num 30)]), Option.none⟩) agent0).1.sample_interval_secs = agent0.sample_interval_secs ∧
    (shadowTick true (.ok ⟨some (.obj [("sample_interval_secs", .num 10), ("upload_interval_secs", .num 60), ("heartbeat_interval_secs", .num 30)]), Option.none⟩) agent0).2.uploadReset = false ∧
    (shadowTick true (.ok ⟨some (.obj [("sample_interval_secs", .num 10), ("upload_interval_secs", .num 60), ("heartbeat_interval_secs", .num 30)]), Option.none⟩) agent0).1.upload_interval_secs = agent0.upload_interval_secs ∧
    (shadowTick true (.ok ⟨some (.obj [("sample_interval_secs", .num 10), ("upload_interval_secs", .num 60), ("heartbeat_interval_secs", .num 30)]), Option.none⟩) agent0).2.heartbeatReset = false ∧
    (shadowTick true (.ok ⟨some (.obj [("sample_interval_secs", .num 10), ("upload_interval_secs", .num 60), ("heartbeat_interval_secs", .num 30)]), Option.none⟩) agent0).1.heartbeat_interval_secs = agent0.heartbeat_interval_secs ∧
    getField (shadowTick true (.ok ⟨some (.obj [("sample_interval_secs", .num 10), ("upload_interval_secs", .num 60), ("heartbeat_interval_secs", .num 30)]), Option.none⟩) agent0).1.current_reported_state "chaos_flags" = some (((Json.obj [("sample_interval_secs", .num 10), ("upload_interval_secs", .num 60), ("heartbeat_interval_secs", .num 30)]).get "chaos_flags").getD (.obj [])) ∧
    (shadowTick true (.ok ⟨some (.obj [("sample_interval_secs", .num 10), ("upload_interval_secs", .num 60), ("heartbeat_interval_secs", .num 30)]), Option.none⟩) agent0).2.persistCall = some (shadowTick true (.ok ⟨some (.obj [("sample_interval_secs", .num 10), ("upload_interval_secs", .num 60), ("heartbeat_interval_secs", .num 30)]), Option.none⟩) agent0).1.config ∧
    (shadowTick true (.ok ⟨some (.obj [("sample_interval_secs", .num 10), ("upload_interval_secs", .num 60), ("heartbeat_interval_secs", .num 30)]), Option.none⟩) agent0).2.patchCall = some (.obj (shadowTick true (.ok ⟨some (.obj [("sample_interval_secs", .num 10), ("upload_interval_secs", .num 60), ("heartbeat_interval_secs", .num 30)]), Option.none⟩) agent0).1.current_reported_state) := by
  have h := c7_interval_idempotent
      ⟨some (.obj [("sample_interval_secs", .num 10), ("upload_interval_secs", .num 60), ("heartbeat_interval_secs", .num 30)]), Option.none⟩
      (.obj [("sample_interval_secs", .num 10), ("upload_interval_secs", .num 60), ("heartbeat_interval_secs", .num 30)]) agent0 rfl
  exact ⟨(h.1 10 rfl (by decide)).1, (h.1 10 rfl (by decide)).2,
         (h.2.1 60 rfl (by decide)).1, (h.2.1 60 rfl (by decide)).2,
         (h.2.2.1 30 rfl (by decide)).1, (h.2.2.1 30 rfl (by decide)).2,
         h.2.2.2.2.2.2.1, h.2.2.2.2.2.2.2.1, h.2.2.2.2.2.2.2.2.2⟩

/-- C5 counterexample. A concrete heartbeat tick whose `DesiredState`
changes the sample interval (10 → 5) mutates the live scheduler period but
issues no persist call and leaves the persisted config untouched, so the
persisted `sample_interval_secs` (10) no longer equals the live period (5):
interval mutations applied by a heartbeat response are not followed by a
persist of the `Config`. -/
theorem c5_counterexample :
    (heartbeatTick false (.ok ⟨Option.none, 5, 60, 30⟩) agent0).1.sample_interval_secs ≠ agent0.sample_interval_secs ∧
    (heartbeatTick false (.ok ⟨Option.none, 5, 60, 30⟩) agent0).2.persistCall = none ∧
    (heartbeatTick false (.ok ⟨Option.none, 5, 60, 30⟩) agent0).1.savedConfig = agent0.savedConfig ∧
    (heartbeatTick false (.ok ⟨Option.none, 5, 60, 30⟩) agent0).1.savedConfig.map Config.sample_interval_secs ≠
      some (heartbeatTick false (.ok ⟨Option.none, 5, 60, 30⟩) agent0).1.sample_interval_secs :=
  ⟨by decide, rfl, rfl, by decide⟩

/-- C5 as amended. Interval mutations applied by the shadow-check tick are
followed by a persist of the full `Config`, which records the live periods
inside its `reported_shadow_state` document (not in the `Config`'s own
interval fields); interval mutations applied by a heartbeat response's
`DesiredState` are not followed by any persist. -/
theorem c5_amended_persistence (shadow : DeviceShadow) (d : Json)
    (hd : shadow.desired = some d) :
    (∀ (rngHit : Bool) (resp : Except Unit DesiredState) (s : AgentState),
        (heartbeatTick rngHit resp s).2.persistCall = none) ∧
    (∀ (saveOk : Bool) (s : AgentState),
        (shadowTick saveOk (.ok shadow) s).2.persistCall = some (shadowTick saveOk (.ok shadow) s).1.config ∧
        (shadowTick saveOk (.ok shadow) s).1.config.reported_shadow_state = some (.obj (shadowTick saveOk (.ok shadow) s).1.current_reported_state) ∧
        getField (shadowTick saveOk (.ok shadow) s).1.current_reported_state "sample_interval_secs" = some (.num ((shadowTick saveOk (.ok shadow) s).1.sample_interval_secs : Int)) ∧
        getField (shadowTick saveOk (.ok shadow) s).1.current_reported_state "upload_interval_secs" = some (.num ((shadowTick saveOk (.ok shadow) s).1.upload_interval_secs : Int)) ∧
        getField (shadowTick saveOk (.ok shadow) s).1.current_reported_state "heartbeat_interval_secs" = some (.num ((shadowTick saveOk (.ok shadow) s).1.heartbeat_interval_secs : Int)) ∧
        (saveOk = true → (shadowTick saveOk (.ok shadow) s).1.savedConfig = some (shadowTick saveOk (.ok shadow) s).1.config)) := by
  constructor
  · intro rngHit resp s
    rw [heartbeatTick.eq_def]
    by_cases hI : (chaosRandomError s.config.chaos_flags && rngHit) = true
    · simp [hI]
    · simp only [Bool.not_eq_true] at hI
      simp only [hI, Bool.false_eq_true, if_false]
      cases resp with
      | error e => rfl
      | ok dd => rfl
  · intro saveOk s
    have heff := shadowTick_desired_effects saveOk shadow d s hd
    exact ⟨heff.2.2.2.2.2.1, heff.2.2.2.2.2.2.2.1, heff.1, heff.2.1, heff.2.2.1, heff.2.2.2.2.2.2.2.2⟩

/-- Witness for the amended C5 at concrete inputs: a failed heartbeat tick
persists nothing; a shadow tick with an empty desired document persists the
config with the refreshed reported document. -/
theorem c5_amended_persistence_witness :
    (heartbeatTick false (.error ()) agent0).2.persistCall = none ∧
    (shadowTick true (.ok ⟨some (.obj []), Option.none⟩) agent0).2.persistCall = some (shadowTick true (.ok ⟨some (.obj []), Option.none⟩) agent0).1.config ∧
    (shadowTick true (.ok ⟨some (.obj []), Option.none⟩) agent0).1.savedConfig = some (shadowTick true (.ok ⟨some (.obj []), Option.none⟩) agent0).1.config := by
  have h := c5_amended_persistence ⟨some (.obj []), Option.none⟩ (.obj []) rfl
  exact ⟨h.1 false (.error ()) agent0, (h.2 true agent0).1, (h.2 true agent0).2.2.2.2.2 rfl⟩

theorem uploadTick_config_frame (rngHit : Bool) (ingest : Except Unit Unit)
    (s : AgentState) :
    (uploadTick rngHit ingest s).1.config = s.config ∧
    (uploadTick rngHit ingest s).1.savedConfig = s.savedConfig := by
  rw [uploadTick]
  split
  · exact ⟨rfl, rfl⟩
  · split
    split
    · exact ⟨rfl, rfl⟩
    · split
      · exact ⟨rfl, rfl⟩
      · exact ⟨rfl, rfl⟩

theorem heartbeatTick_config_frame (rngHit : Bool)
    (resp : Except Unit DesiredState) (s : AgentState) :
    (heartbeatTick rngHit resp s).1.config = s.config ∧
    (heartbeatTick rngHit resp s).1.savedConfig = s.savedConfig := by
  rw [heartbeatTick.eq_def]
  split
  · exact ⟨rfl, rfl⟩
  · split
    · exact ⟨rfl, rfl⟩
    · exact ⟨rfl, rfl⟩

theorem shadowTick_config_frame (saveOk : Bool)
    (resp : Except Unit DeviceShadow) (s : AgentState) :
    (shadowTick saveOk resp s).1.config.device_id = s.config.device_id ∧
    (shadowTick saveOk resp s).1.config.auth_token = s.config.auth_token ∧
    ((shadowTick saveOk resp s).1.savedConfig = s.savedConfig ∨
      (shadowTick saveOk resp s).1.savedConfig = some (shadowTick saveOk resp s).1.config) := by
  rw [shadowTick.eq_def]
  split
  · exact ⟨rfl, rfl, Or.inl rfl⟩
  · split
    · exact ⟨rfl, rfl, Or.inl rfl⟩
    · refine ⟨rfl, rfl, ?_⟩
      cases saveOk
      · exact Or.inl rfl
      · exact Or.inr rfl

theorem applyTick_config_frame (t : TickInput) (s : AgentState) :
    (applyTick t s).config.device_id = s.config.device_id ∧
    (applyTick t s).config.auth_token = s.config.auth_token ∧
    ((applyTick t s).savedConfig = s.savedConfig ∨
      (applyTick t s).savedConfig = some (applyTick t s).config) := by
  cases t with
  | sample m => exact ⟨rfl, rfl, Or.inl rfl⟩
  | upload rngHit ingest =>
      obtain ⟨h1, h2⟩ := uploadTick_config_frame rngHit ingest s
      refine ⟨?_, ?_, Or.inl ?_⟩
      · show (uploadTick rngHit ingest s).1.config.device_id = s.config.device_id
        rw [h1]
      · show (uploadTick rngHit ingest s).1.config.auth_token = s.config.auth_token
        rw [h1]
      · exact h2
  | heartbeat rngHit resp =>
      obtain ⟨h1, h2⟩ := heartbeatTick_config_frame rngHit resp s
      refine ⟨?_, ?_, Or.inl ?_⟩
      · show (heartbeatTick rngHit resp s).1.config.device_id = s.config.device_id
        rw [h1]
      · show (heartbeatTick rngHit resp s).1.config.auth_token = s.config.auth_token
        rw [h1]
      · exact h2
  | otaCheck env => exact ⟨rfl, rfl, Or.inl rfl⟩
  | shadowCheck saveOk resp => exact shadowTick_config_frame saveOk resp s

/-- C8. After registration, no sequence of agent-loop ticks — sampling,
uploading, heartbeats, OTA checks, shadow checks, under any outcomes of
their fallible calls — ever changes the `Config`'s `device_id` or
`auth_token`: the in-memory fields are exactly preserved, and the persisted
config file is either untouched or rewritten with the same `device_id` and
`auth_token`. -/
theorem c8_registration_immutability (ts : List TickInput) (s : AgentState) :
    (runTicks ts s).config.device_id = s.config.device_id ∧
    (runTicks ts s).config.auth_token = s.config.auth_token ∧
    ((runTicks ts s).savedConfig = s.savedConfig ∨
      ((runTicks ts s).savedConfig.map Config.device_id = some s.config.device_id ∧
       (runTicks ts s).savedConfig.map Config.auth_token = some s.config.auth_token)) := by
  induction ts generalizing s with
  | nil => exact ⟨rfl, rfl, Or.inl rfl⟩
  | cons t ts ih =>
      have hstep := applyTick_config_frame t s
      have hrec := ih (applyTick t s)
      have hrun : runTicks (t :: ts) s = runTicks ts (applyTick t s) := rfl
      rw [hrun]
      refine ⟨hrec.1.trans hstep.1, hrec.2.1.trans hstep.2.1, ?_⟩
      rcases hrec.2.2 with h | h
      · rw [h]
        rcases hstep.2.2 with h2 | h2
        · exact Or.inl h2
        · right
          rw [h2]
          constructor
          · rw [Option.map_some']
            exact congrArg some hstep.1
          · rw [Option.map_some']
            exact congrArg some hstep.2.1
      · right
        exact ⟨h.1.trans (congrArg some hstep.1), h.2.trans (congrArg some hstep.2.1)⟩
